import Mathlib

/-!
Shallow embedding of the record-and-attachment reconciliation engine of the
arrms-onspring integration, together with proofs of the specification claims.

The definitions mirror the Python source:
* `calculate_onspring_status`, `calculate_onspring_fields`, `get_document_url`
  from `src/handlers/arrms_to_onspring.py`;
* the rollup computed by `run_listener_with_sync.on_webhook` in
  `scripts/local_runner.py` (lines 782-807);
* `transform_record` from `src/handlers/onspring_to_arrms.py` and its
  local-runner variant;
* `sync_records_to_arrms` / the per-record attachment pipeline from
  `src/handlers/onspring_to_arrms.py`;
* `ARRMSClient.get_questionnaire_by_external_id` / `upsert_questionnaire`
  from `src/adapters/arrms_client.py`;
* `run_webhook_flow` from `scripts/local_runner.py`;
* `OnspringClient.get_record_files` from `src/adapters/onspring_client.py`.

Python dictionaries holding arbitrary JSON data are embedded as the inductive
type `JVal`; fallible calls (HTTP requests, file uploads) are embedded as
`Except String`-valued collaborator functions supplied as parameters, and the
wall clock (`datetime.utcnow().isoformat()`) is threaded as an explicit
`String` parameter.
-/

/-- A JSON-like Python value, as held in Onspring/ARRMS payload dictionaries. -/
inductive JVal where
  | null : JVal
  | bool : Bool → JVal
  | num : Int → JVal
  | str : String → JVal
  | list : List JVal → JVal
  | obj : List (String × JVal) → JVal

/-- Dictionary lookup, `d.get(k)` on a Python dict (first binding wins). -/
def JVal.get? (v : JVal) (k : String) : Option JVal :=
  match v with
  | .obj kvs => kvs.lookup k
  | _ => none

/-- Python truthiness of a JSON-like value (`if v:`). -/
def JVal.truthy : JVal → Bool
  | .null => false
  | .bool b => b
  | .num n => n != 0
  | .str s => s != ""
  | .list xs => !xs.isEmpty
  | .obj kvs => !kvs.isEmpty

/-- Python `int(v)`: succeeds on ints, bools and numeric strings, raises
(`Except.error`) on everything else. -/
def jvalToInt : JVal → Except String Int
  | .num n => .ok n
  | .bool b => .ok (if b then 1 else 0)
  | .str s =>
    match s.toInt? with
    | some n => .ok n
    | none => .error "ValueError"
  | _ => .error "TypeError"

/-! ## Status Derivation (`src/handlers/arrms_to_onspring.py`) -/

/-- The `source_document` entry of the ARRMS statistics metadata. -/
structure SourceDocument where
  url : Option String

/-- The `metadata` object of an ARRMS statistics response. -/
structure StatsMetadata where
  source_document : Option SourceDocument

/-- The `confidence_distribution` object of an ARRMS statistics summary. -/
structure ConfidenceDistribution where
  very_high : Nat
  high : Nat
  medium : Nat
  low : Nat

/-- The `summary` object of an ARRMS statistics response
(`ProgressStatistics` in the specification; question counters are
natural numbers). -/
structure StatsSummary where
  total_questions : Nat
  answered_questions : Nat
  approved_questions : Nat
  unanswered_questions : Nat
  confidence_distribution : ConfidenceDistribution

/-- An ARRMS statistics response (`arrms_stats` in the handler). -/
structure ArrmsStats where
  summary : StatsSummary
  metadata : StatsMetadata

/-- `get_document_url` (arrms_to_onspring.py lines 391-404): extract the
output-document URL from the statistics metadata. -/
def get_document_url (metadata : StatsMetadata) : Option String :=
  match metadata.source_document with
  | some source_doc => source_doc.url
  | none => none

/-- `calculate_onspring_status` (arrms_to_onspring.py lines 355-388). -/
def calculate_onspring_status (total_questions answered_questions approved_questions : Nat)
    (document_url : Option String) : String :=
  let has_responses : Bool := decide (0 < answered_questions)
  let all_approved : Bool := decide (approved_questions = total_questions)
  let has_document : Bool := document_url.isSome
  if !has_responses then "Not Started"
  else if all_approved && has_document then "Ready for Validation"
  else "Request in Process"

/-- The dictionary of Onspring field values built by
`calculate_onspring_fields` (fixed keys, so embedded as a structure). -/
structure OnspringFieldValues where
  total_assessment_questions : Nat
  complete_assessment_questions : Nat
  open_assessment_questions : Nat
  high_confidence_questions : Nat
  medium_high_confidence : Nat
  medium_low_confidence : Nat
  low_confidence_questions : Nat
  status : String

/-- `calculate_onspring_fields` (arrms_to_onspring.py lines 308-352): the
production handler maps `Open Assessment Questions` to the upstream
`unanswered_questions` statistic. -/
def calculate_onspring_fields (arrms_stats : ArrmsStats) : OnspringFieldValues :=
  let summary := arrms_stats.summary
  let confidence_dist := summary.confidence_distribution
  let metadata := arrms_stats.metadata
  let onspring_status := calculate_onspring_status summary.total_questions
    summary.answered_questions summary.approved_questions (get_document_url metadata)
  { total_assessment_questions := summary.total_questions
    complete_assessment_questions := summary.approved_questions
    open_assessment_questions := summary.unanswered_questions
    high_confidence_questions := confidence_dist.very_high
    medium_high_confidence := confidence_dist.high
    medium_low_confidence := confidence_dist.medium
    low_confidence_questions := confidence_dist.low
    status := onspring_status }

/-- The rollup computed by `run_listener_with_sync.on_webhook`
(local_runner.py lines 782-791): `open_questions = total - complete`,
calculated by subtraction (the integers there are Python ints, hence `Int`). -/
def on_webhook_open_questions (summary : StatsSummary) : Int :=
  (summary.total_questions : Int) - (summary.approved_questions : Int)

/-- The status computed by `run_listener_with_sync.on_webhook`
(local_runner.py lines 798-807). -/
def on_webhook_status (summary : StatsSummary) (has_document : Bool) : String :=
  if summary.answered_questions = 0 then "Not Started"
  else if summary.approved_questions = summary.total_questions && has_document then
    "Ready for Validation"
  else "Request in Process"

/-- Concrete statistics input exhibiting the C1 divergence: ten questions,
four approved, three reported as unanswered upstream. -/
def c1Stats : ArrmsStats :=
  { summary :=
      { total_questions := 10
        answered_questions := 6
        approved_questions := 4
        unanswered_questions := 3
        confidence_distribution := ⟨0, 0, 0, 0⟩ }
    metadata := { source_document := none } }

/-! ## Record Transformer (`src/handlers/onspring_to_arrms.py` and
`scripts/local_runner.py`) -/

/-- One entry of the legacy name-keyed `fields` map of an Onspring record:
a dict that may carry `value` and `fieldId` keys. -/
structure FieldEntry where
  value : Option JVal
  fieldId : Option Int

/-- One entry of the `fieldData` array of an Onspring record. -/
structure FieldData where
  ftype : Option String
  fieldId : Option Int
  value : Option JVal

/-- An Onspring source record: `recordId`, optional `appId`, the legacy
name-keyed `fields` map and the production `fieldData` array. -/
structure OnspringRecord where
  recordId : Int
  appId : Option Int
  fields : List (String × FieldEntry)
  fieldData : List FieldData

/-- The `get_field_value` helper of `transform_record`
(onspring_to_arrms.py lines 361-363): name-keyed lookup with a default. -/
def get_field_value (fields : List (String × FieldEntry)) (field_name : String)
    (default : JVal) : JVal :=
  match fields.lookup field_name with
  | some field_data =>
    match field_data.value with
    | some v => v
    | none => default
  | none => default

/-- The `fieldId` of a named entry of the legacy `fields` map
(`fields.get(name, {}).get("fieldId")`). -/
def get_field_id (fields : List (String × FieldEntry)) (field_name : String) : Option Int :=
  match fields.lookup field_name with
  | some field_data => field_data.fieldId
  | none => none

/-- The `external_metadata` dictionary stamped by the production
`transform_record`. -/
structure ExternalMetadata where
  app_id : Option Int
  onspring_status : JVal
  onspring_url : String
  field_ids : List (String × Option Int)
  synced_at : String
  sync_type : String

/-- The transformed record built by the production `transform_record`. -/
structure TransformedRecord where
  title : JVal
  client_name : JVal
  description : JVal
  due_date : JVal
  external_id : String
  external_source : String
  external_metadata : ExternalMetadata

/-- `transform_record` (onspring_to_arrms.py lines 331-399). The wall-clock
reading `datetime.utcnow().isoformat()` is threaded as the `now` parameter. -/
def transform_record (onspring_record : OnspringRecord) (now : String) : TransformedRecord :=
  let fields := onspring_record.fields
  { title := get_field_value fields "Title" (JVal.str "Untitled Questionnaire")
    client_name := get_field_value fields "Client" JVal.null
    description := get_field_value fields "Description" JVal.null
    due_date := get_field_value fields "DueDate" JVal.null
    external_id := toString onspring_record.recordId
    external_source := "onspring"
    external_metadata :=
      { app_id := onspring_record.appId
        onspring_status := get_field_value fields "Status" JVal.null
        onspring_url := "https://app.onspring.com/record/" ++ toString onspring_record.recordId
        field_ids :=
          [("title", get_field_id fields "Title"),
           ("client", get_field_id fields "Client"),
           ("due_date", get_field_id fields "DueDate"),
           ("status", get_field_id fields "Status"),
           ("description", get_field_id fields "Description")]
        synced_at := now
        sync_type := "webhook" } }

/-- The `get_field_value_by_id` helper of the local-runner `transform_record`
(local_runner.py lines 394-398): first `fieldData` entry with the given
`fieldId` wins. -/
def get_field_value_by_id (field_data : List FieldData) (field_id : Int)
    (default : JVal) : JVal :=
  match field_data.find? (fun field => field.fieldId == some field_id) with
  | some field =>
    match field.value with
    | some v => v
    | none => default
  | none => default

/-- A reference resolver collaborator
(`OnspringClient.resolve_reference_field`): given the referenced app id,
record id and field id, returns the resolved display value or `none`, or
raises (`Except.error`). -/
def Resolver : Type := Int → Int → Int → Except String (Option String)

/-- The transformed record built by the local-runner `transform_record`
(which additionally carries `notes` and `requester_name`). -/
structure LocalTransformedRecord where
  title : JVal
  client_name : JVal
  description : JVal
  due_date : JVal
  notes : JVal
  requester_name : Option String
  external_id : String
  external_source : String
  external_metadata : ExternalMetadata

/-- The `requester_name` resolution step of the local-runner
`transform_record` (local_runner.py lines 405-419): the reference field
14947 is resolved through field 14949 of app 249, and any exception raised
by `int(...)` or by the resolver call is caught, leaving `requester_name`
unset. -/
def resolve_requester_name (company_record_id : JVal)
    (onspring_client : Option Resolver) : Option String :=
  if company_record_id.truthy then
    match onspring_client with
    | some resolver =>
      match jvalToInt company_record_id with
      | .ok rid =>
        match resolver 249 rid 14949 with
        | .ok v => v
        | .error _ => none
      | .error _ => none
    | none => none
  else none

/-- The local-runner `transform_record` (local_runner.py lines 379-450). -/
def local_transform_record (onspring_record : OnspringRecord)
    (onspring_client : Option Resolver) (now : String) : LocalTransformedRecord :=
  let field_data := onspring_record.fieldData
  let fields := onspring_record.fields
  let company_record_id := get_field_value_by_id field_data 14947 JVal.null
  let requester_name := resolve_requester_name company_record_id onspring_client
  { title := get_field_value fields "Title" (JVal.str "Untitled Questionnaire")
    client_name := get_field_value fields "Client" JVal.null
    description := get_field_value fields "Description" JVal.null
    due_date := get_field_value_by_id field_data 14872 JVal.null
    notes := get_field_value_by_id field_data 14888 JVal.null
    requester_name := requester_name
    external_id := toString onspring_record.recordId
    external_source := "onspring"
    external_metadata :=
      { app_id := onspring_record.appId
        onspring_status := get_field_value fields "Status" JVal.null
        onspring_url := "https://app.onspring.com/record/" ++ toString onspring_record.recordId
        field_ids :=
          [("title", some 101), ("client", some 102), ("due_date", some 14872),
           ("status", some 104), ("description", some 105),
           ("scope_summary", some 14888), ("company_reference", some 14947),
           ("questionnaire_link", some 15083)]
        synced_at := now
        sync_type := "local_test" } }

/-- Sample record used as a concrete witness input (shaped like mock record
12345 of `scripts/mock_onspring.py`, attachments omitted). -/
def sampleRecord : OnspringRecord :=
  { recordId := 12345
    appId := some 100
    fields :=
      [("Title", ⟨some (JVal.str "SOC 2 Type II Assessment"), some 101⟩),
       ("Client", ⟨some (JVal.str "Acme Corporation"), some 102⟩),
       ("DueDate", ⟨some (JVal.str "2026-03-31"), some 103⟩),
       ("Status", ⟨some (JVal.str "New"), some 104⟩),
       ("Description", ⟨some (JVal.str "Annual assessment"), some 105⟩)]
    fieldData :=
      [⟨some "String", some 101, some (JVal.str "SOC 2 Type II Assessment")⟩,
       ⟨some "Date", some 14872, some (JVal.str "2026-03-31")⟩,
       ⟨some "String", some 14888, some (JVal.str "Scope summary")⟩,
       ⟨some "Integer", some 14947, some (JVal.num 501)⟩] }

/-! ## Attachment Fan-out and batch sync (`src/handlers/onspring_to_arrms.py`,
`src/handlers/onspring_webhook.py`) -/

/-- Index of the last occurrence of a character in a character list
(`-1` when absent), as used by `os.path.splitext`. -/
def lastIndexOf (c : Char) (l : List Char) : Int :=
  (List.range l.length).foldl
    (fun acc i => if l.get? i = some c then (i : Int) else acc) (-1)

/-- `os.path.splitext` for POSIX paths (CPython `genericpath._splitext` with
`sep = '/'`, no `altsep`, `extsep = '.'`): the extension starts at the last
dot, provided some earlier character of the basename is not a dot. -/
def splitext (p : String) : String × String :=
  let l := p.toList
  let sepIndex := lastIndexOf '/' l
  let dotIndex := lastIndexOf '.' l
  if sepIndex < dotIndex ∧
      (List.range l.length).any
        (fun i => decide (sepIndex < (i : Int)) && decide ((i : Int) < dotIndex) &&
          (l.getD i '.' != '.')) then
    (String.mk (l.take dotIndex.toNat), String.mk (l.drop dotIndex.toNat))
  else (p, "")

/-- One scanned attachment, as consumed by the sync pipeline: the Onspring
file id and the `file_name` reported by Onspring (absent when the metadata
carries no name). -/
structure SyncFile where
  file_id : Int
  file_name : Option String
  deriving DecidableEq

/-- The collaborator calls made by the per-record sync pipeline, as
`Except`-valued functions: `download_file` and `upload_document` are keyed by
the Onspring file id, `upload_questionnaire` by the Onspring record id. -/
structure SyncEnv where
  download : Int → Except String Unit
  upload_questionnaire : Int → Except String JVal
  upload_document : Int → Except String Unit

/-- The outcome of the per-file body of the supplementary loop
(onspring_to_arrms.py lines 276-312): download the file from Onspring, then
upload it to ARRMS; either step may raise. -/
def supp_outcome (env : SyncEnv) (file_info : SyncFile) : Except String Unit :=
  match env.download file_info.file_id with
  | .error e => .error e
  | .ok _ => env.upload_document file_info.file_id

/-- The supplementary-file loop (onspring_to_arrms.py lines 274-312 and
onspring_webhook.py lines 180-230): each file is processed in its own
try/except, a failure increments `files_failed` and the loop continues.
Returns `(files_synced, files_failed, attempted file ids in order)`. -/
def upload_additional_files (env : SyncEnv) : List SyncFile → Nat × Nat × List Int
  | [] => (0, 0, [])
  | file_info :: rest =>
    let res := upload_additional_files env rest
    match supp_outcome env file_info with
    | .ok _ => (res.1 + 1, res.2.1, file_info.file_id :: res.2.2)
    | .error _ => (res.1, res.2.1 + 1, file_info.file_id :: res.2.2)

/-- The per-record sync body (onspring_to_arrms.py lines 180-314, identical
in the webhook handler): fail the record when the attachment scan yields no
files; the first file is the mandatory questionnaire file — download it,
validate that it carries a filename with an extension, upload it — and all
remaining files go through the best-effort supplementary loop. An
`Except.error` is a raised exception for this record (in the batch it is
caught and recorded; on the single-record path it becomes an error
response). -/
def sync_one_record (env : SyncEnv) (record_id : Int) :
    List SyncFile → Except String (Nat × Nat × List Int)
  | [] => .error "No files found in record"
  | questionnaire_file :: additional_files =>
    match env.download questionnaire_file.file_id with
    | .error e => .error e
    | .ok _ =>
      match questionnaire_file.file_name with
      | none => .error "Questionnaire file is missing filename in Onspring data"
      | some file_name =>
        if file_name = "" then
          .error "Questionnaire file is missing filename in Onspring data"
        else if (splitext file_name).2 = "" then
          .error "Questionnaire file has no file extension"
        else
          match env.upload_questionnaire record_id with
          | .error e => .error e
          | .ok _result => .ok (upload_additional_files env additional_files)

/-- A source record together with its scanned attachment list, as iterated
by the batch sync. -/
structure RecordStub where
  recordId : Int
  files : List SyncFile

/-- The accumulated batch result of `sync_records_to_arrms`. -/
structure BatchResults where
  successful : Nat
  failed : Nat
  errors : List (Int × String)
  files_synced : Nat
  files_failed : Nat

/-- The record loop of `sync_records_to_arrms` (onspring_to_arrms.py lines
179-321): each source record is processed inside a try/except, a failure
increments `failed` and appends an entry to `errors`, and iteration
continues with the next record. -/
def sync_records_go (env : SyncEnv) (acc : BatchResults) :
    List RecordStub → BatchResults
  | [] => acc
  | record :: rest =>
    match sync_one_record env record.recordId record.files with
    | .ok (s, fl, _) =>
      sync_records_go env
        { acc with
          successful := acc.successful + 1
          files_synced := acc.files_synced + s
          files_failed := acc.files_failed + fl } rest
    | .error e =>
      sync_records_go env
        { acc with
          failed := acc.failed + 1
          errors := acc.errors ++ [(record.recordId, e)] } rest

/-- `sync_records_to_arrms` (onspring_to_arrms.py lines 157-328). -/
def sync_records_to_arrms (env : SyncEnv) (records : List RecordStub) : BatchResults :=
  sync_records_go env ⟨0, 0, [], 0, 0⟩ records

/-- The tail of the batch `lambda_handler` (onspring_to_arrms.py lines
100-113): once the request parsed and the records were retrieved, the
response is always built with status code 200 and the batch summary. -/
def onspring_to_arrms_response (env : SyncEnv) (records : List RecordStub) :
    Nat × BatchResults :=
  (200, sync_records_to_arrms env records)

/-- Whether a fallible call returned without raising. -/
def isOkB {ε α : Type} : Except ε α → Bool
  | .ok _ => true
  | .error _ => false

/-- Environment for the C3 scenario: three attachments with file ids 101,
102, 103; the supplementary upload of file 102 throws, everything else
succeeds. -/
def c3Env : SyncEnv :=
  { download := fun _ => .ok ()
    upload_questionnaire := fun _ => .ok (JVal.obj [("id", JVal.num 7)])
    upload_document := fun file_id => if file_id = 102 then .error "boom" else .ok () }

/-- The three attachments of the C3 scenario, in source order. -/
def c3Files : List SyncFile :=
  [⟨101, some "questionnaire.xlsx"⟩, ⟨102, some "supporting_docs.pdf"⟩,
   ⟨103, some "notes.pdf"⟩]

/-! ## Upsert Reconciler (`src/adapters/arrms_client.py`) -/

/-- An HTTP response of the questionnaire query endpoint: the status code
and the parsed JSON body (a list of questionnaire dicts). -/
structure HttpResp where
  status : Nat
  body : List JVal

/-- `ARRMSClient.get_questionnaire_by_external_id` (arrms_client.py lines
210-248) over an abstract query backend: a 404 status is treated as absence
(`none`), any other error status raises `ARRMSAPIError`, a transport error
is wrapped, and a successful response yields the first result of the list
when there is one. -/
def get_questionnaire_by_external_id (query : String → Except String HttpResp)
    (external_id : String) : Except String (Option JVal) :=
  match query external_id with
  | .error e => .error ("Request failed: " ++ e)
  | .ok response =>
    if response.status = 404 then .ok none
    else if 400 ≤ response.status then .error "Failed to query questionnaire"
    else .ok response.body.head?

/-- The ARRMS calls observable during `upsert_questionnaire`. -/
inductive UpsertEvent where
  | queried (external_id : String)
  | createdQ
  | updatedQ (arrms_id : JVal)

/-- The collaborator endpoints used by `upsert_questionnaire`. -/
structure UpsertEnv where
  query : String → Except String HttpResp
  create : Except String JVal
  update : JVal → Except String JVal

/-- `ARRMSClient.upsert_questionnaire` (arrms_client.py lines 250-281):
look the questionnaire up by external id first; when the lookup reports an
existing (truthy) questionnaire, update it under its existing ARRMS id,
otherwise create a new one. Returns the API result together with the trace
of ARRMS calls made; a missing `id` key raises and is re-wrapped by the
generic handler. -/
def upsert_questionnaire (env : UpsertEnv) (external_id : String) :
    Except String JVal × List UpsertEvent :=
  match get_questionnaire_by_external_id env.query external_id with
  | .error e => (.error e, [.queried external_id])
  | .ok existing =>
    match existing with
    | some ex =>
      if ex.truthy then
        match ex.get? "id" with
        | some arrms_id =>
          (env.update arrms_id, [.queried external_id, .updatedQ arrms_id])
        | none => (.error "Upsert operation failed: KeyError", [.queried external_id])
      else (env.create, [.queried external_id, .createdQ])
    | none => (env.create, [.queried external_id, .createdQ])

/-- Upsert environment whose backend reports no questionnaire (404). -/
def c4Env404 : UpsertEnv :=
  { query := fun _ => .ok ⟨404, []⟩
    create := .ok (JVal.obj [("id", JVal.num 3)])
    update := fun _ => .ok (JVal.obj [("id", JVal.num 3)]) }

/-- Upsert environment whose backend now reports the questionnaire as
found, with ARRMS id 3. -/
def c4EnvFound : UpsertEnv :=
  { query := fun _ => .ok ⟨200, [JVal.obj [("id", JVal.num 3)]]⟩
    create := .ok (JVal.obj [("id", JVal.num 99)])
    update := fun i => .ok (JVal.obj [("id", i)]) }

/-! ## Forward-sync webhook flow (`scripts/local_runner.py`) -/

/-- The ARRMS-side calls observable during `run_webhook_flow`. -/
inductive ArrmsCall where
  | findQ (external_id external_source : String)
  | updateFileQ (questionnaire_id : String)
  | uploadNewQ (external_id external_source : String)
  | uploadDocQ (file_id : Int)
  deriving DecidableEq

/-- Whether an ARRMS call writes (creates or updates) the target entity. -/
def ArrmsCall.isWrite : ArrmsCall → Bool
  | .updateFileQ _ => true
  | .uploadNewQ _ _ => true
  | _ => false

/-- Collaborator endpoints used by `run_webhook_flow`; `find` returns the
id of the existing questionnaire when ARRMS reports one and `none` on a
404. -/
structure FlowEnv where
  find : String → Except String (Option String)
  update_questionnaire_file : String → Except String Unit
  upload_questionnaire : String → Except String Unit
  upload_document : Int → Except String Unit

/-- The sequence of ARRMS calls made by `run_webhook_flow` (local_runner.py
lines 453-578): with no files the flow aborts before contacting ARRMS;
otherwise it first asks ARRMS whether a questionnaire with this record's
external id exists (`find_questionnaire_by_external_id`), then updates the
existing questionnaire file when one was found and creates a new
questionnaire otherwise, and finally attempts one supplementary upload per
additional file (each wrapped in its own try/except). A raised exception
propagates and truncates the trace. -/
def run_webhook_flow (env : FlowEnv) (record_id : Int) (files : List SyncFile) :
    List ArrmsCall :=
  match files with
  | [] => []
  | _questionnaire_file :: additional_files =>
    let eid := toString record_id
    ArrmsCall.findQ eid "onspring" ::
      match env.find eid with
      | .error _ => []
      | .ok (some arrms_id) =>
        ArrmsCall.updateFileQ arrms_id ::
          (match env.update_questionnaire_file arrms_id with
           | .error _ => []
           | .ok _ => additional_files.map (fun f => ArrmsCall.uploadDocQ f.file_id))
      | .ok none =>
        ArrmsCall.uploadNewQ eid "onspring" ::
          (match env.upload_questionnaire eid with
           | .error _ => []
           | .ok _ => additional_files.map (fun f => ArrmsCall.uploadDocQ f.file_id))

/-- Flow environment whose backend reports an existing questionnaire. -/
def c5Env : FlowEnv :=
  { find := fun _ => .ok (some "q-1")
    update_questionnaire_file := fun _ => .ok ()
    upload_questionnaire := fun _ => .ok ()
    upload_document := fun _ => .ok () }

/-! ## Attachment scan (`src/adapters/onspring_client.py`) -/

/-- The `file_info` dictionary built by `get_record_files` for one file
item (every value read through `dict.get`, hence optional). -/
structure FileAttachment where
  record_id : Int
  field_id : Option Int
  file_id : Option JVal
  file_name : Option JVal
  file_size : Option JVal
  content_type : Option JVal
  notes : Option JVal

/-- Building `file_info` from one item of a file list: on a dict, each
value is read with `dict.get`; on anything else the attribute access
`file_item.get` raises. -/
def extract_file_info (record_id : Int) (field_id : Option Int) :
    JVal → Except String FileAttachment
  | .obj kvs =>
    .ok ⟨record_id, field_id, kvs.lookup "fileId", kvs.lookup "fileName",
      kvs.lookup "fileSize", kvs.lookup "contentType", kvs.lookup "notes"⟩
  | _ => .error "AttributeError"

/-- The inner loop of `get_record_files` over the items of one qualifying
file list. -/
def extract_files_list (record_id : Int) (field_id : Option Int) :
    List JVal → Except String (List FileAttachment)
  | [] => .ok []
  | item :: rest =>
    match extract_file_info record_id field_id item with
    | .error e => .error e
    | .ok fi =>
      match extract_files_list record_id field_id rest with
      | .error e => .error e
      | .ok fis => .ok (fi :: fis)

/-- The files contributed by one `fieldData` entry
(onspring_client.py lines 401-431): the entry qualifies when its value is
a non-empty list whose first item is a dict containing the key `fileId`. -/
def field_files (record_id : Int) (field : FieldData) :
    Except String (List FileAttachment) :=
  match field.value with
  | some (.list vs) =>
    match vs with
    | [] => .ok []
    | first :: _ =>
      match first with
      | .obj kvs =>
        if (kvs.lookup "fileId").isSome then extract_files_list record_id field.fieldId vs
        else .ok []
      | _ => .ok []
  | _ => .ok []

/-- The outer loop of `get_record_files` over the `fieldData` array. -/
def get_record_files_go (record_id : Int) :
    List FieldData → Except String (List FileAttachment)
  | [] => .ok []
  | field :: rest =>
    match field_files record_id field with
    | .error e => .error e
    | .ok fs =>
      match get_record_files_go record_id rest with
      | .error e => .error e
      | .ok more => .ok (fs ++ more)

/-- `OnspringClient.get_record_files` (onspring_client.py lines 383-434). -/
def get_record_files (record_data : OnspringRecord) :
    Except String (List FileAttachment) :=
  get_record_files_go record_data.recordId record_data.fieldData

/-- The entry the C10 claim predicts for one item of a qualifying field
value (stated from the claim, for comparison with `get_record_files`). -/
def claimed_file_info (record_id : Int) (field_id : Option Int) (item : JVal) :
    FileAttachment :=
  ⟨record_id, field_id, item.get? "fileId", item.get? "fileName",
    item.get? "fileSize", item.get? "contentType", item.get? "notes"⟩

/-- The entries the C10 claim predicts for one `fieldData` entry: one per
element of a qualifying value, none otherwise. -/
def claimed_field_files (record_id : Int) (field : FieldData) : List FileAttachment :=
  match field.value with
  | some (.list vs) =>
    match vs with
    | [] => []
    | first :: _ =>
      match first with
      | .obj kvs =>
        if (kvs.lookup "fileId").isSome then
          vs.map (claimed_file_info record_id field.fieldId)
        else []
      | _ => []
  | _ => []

/-- The full list of entries the C10 claim predicts: field order first,
within-field list order second. -/
def claimed_record_files (r : OnspringRecord) : List FileAttachment :=
  (r.fieldData.map (claimed_field_files r.recordId)).flatten

/-- Every item of the list is a dict. -/
def all_items_dicts : List JVal → Bool
  | [] => true
  | (.obj _) :: rest => all_items_dicts rest
  | _ => false

/-- Well-formedness of one `fieldData` entry for the attachment scan:
if the entry qualifies as a file list, all of its items are dicts. -/
def field_wf (field : FieldData) : Bool :=
  match field.value with
  | some (.list vs) =>
    match vs with
    | [] => true
    | first :: _ =>
      match first with
      | .obj kvs => if (kvs.lookup "fileId").isSome then all_items_dicts vs else true
      | _ => true
  | _ => true

/-- A well-formed record dict for the attachment scan: every qualifying
file list consists of dicts. -/
def wellFormedFiles (r : OnspringRecord) : Bool :=
  r.fieldData.all field_wf

/-- Concrete record for the C10 witness: one plain string field, one empty
list, one list not starting with a file dict, and one attachment list with
two files. -/
def c10Record : OnspringRecord :=
  { recordId := 12345
    appId := some 100
    fields := []
    fieldData :=
      [⟨some "String", some 101, some (JVal.str "SOC 2 Type II Assessment")⟩,
       ⟨some "AttachmentList", some 199, some (JVal.list [])⟩,
       ⟨some "List", some 201, some (JVal.list [JVal.num 5, JVal.num 6])⟩,
       ⟨some "AttachmentList", some 200,
        some (JVal.list
          [JVal.obj [("fileId", JVal.num 1001), ("fileName", JVal.str "questionnaire.xlsx")],
           JVal.obj [("fileId", JVal.num 1002), ("fileName", JVal.str "supporting_docs.pdf")]])⟩] }

/-! ## Theorems -/

/-- C1 (code bug evidence): on the statistics input with
`totalQuestions = 10`, `approvedQuestions = 4`, `unansweredQuestions = 3`,
the production handler `calculate_onspring_fields` emits
`Open Assessment Questions = 3` — taken from the `unanswered_questions`
statistic — while the claimed (and local-runner) computation
`open = total - complete` yields `6`; in particular the handler output
violates `open = total - complete`. -/
theorem c1_open_field_divergence :
    (calculate_onspring_fields c1Stats).open_assessment_questions = 3 ∧
    on_webhook_open_questions c1Stats.summary = 6 ∧
    (calculate_onspring_fields c1Stats).open_assessment_questions ≠
      (calculate_onspring_fields c1Stats).total_assessment_questions -
        (calculate_onspring_fields c1Stats).complete_assessment_questions := by
  refine ⟨rfl, rfl, ?_⟩
  decide

/-- C2: `calculate_onspring_status` is a total function evaluated
first-match-wins: zero answered questions always yields `Not Started`
regardless of the other fields; otherwise all questions approved together
with a present document always yields `Ready for Validation`; every other
combination yields `Request in Process`. -/
theorem c2_status_derivation (total answered approved : Nat) (doc : Option String) :
    (answered = 0 → calculate_onspring_status total answered approved doc = "Not Started") ∧
    (answered ≠ 0 → approved = total → doc.isSome →
      calculate_onspring_status total answered approved doc = "Ready for Validation") ∧
    (answered ≠ 0 → ¬(approved = total ∧ doc.isSome = true) →
      calculate_onspring_status total answered approved doc = "Request in Process") := by
  unfold calculate_onspring_status
  refine ⟨fun h => ?_, fun h ha hd => ?_, fun h hn => ?_⟩
  · subst h
    simp
  · subst ha
    have : 0 < answered := Nat.pos_of_ne_zero h
    simp [this, hd]
  · have hpos : 0 < answered := Nat.pos_of_ne_zero h
    rcases Decidable.em (approved = total) with he | he
    · have hd : doc.isSome = false := by
        rcases Decidable.em (doc.isSome = true) with h1 | h1
        · exact absurd ⟨he, h1⟩ hn
        · simpa using h1
      simp [hpos, he, hd]
    · simp [hpos, he]

/-- C2 witness: for `total = 10`, `answered = 6`, `approved = 4`, no
document, the derived status is `Request in Process`. -/
theorem c2_status_derivation_witness :
    calculate_onspring_status 10 6 4 none = "Request in Process" :=
  (c2_status_derivation 10 6 4 none).2.2 (by decide) (by decide)

/-- C6: for every source record, both `transform_record` variants stamp
`external_id = str(recordId)`, the fixed source tag
`external_source = "onspring"`, and the UTC `synced_at` timestamp into the
external metadata, regardless of which optional fields are present. -/
theorem c6_transform_provenance (r : OnspringRecord) (client : Option Resolver)
    (now : String) :
    (transform_record r now).external_id = toString r.recordId ∧
    (transform_record r now).external_source = "onspring" ∧
    (transform_record r now).external_metadata.synced_at = now ∧
    (local_transform_record r client now).external_id = toString r.recordId ∧
    (local_transform_record r client now).external_source = "onspring" ∧
    (local_transform_record r client now).external_metadata.synced_at = now :=
  ⟨rfl, rfl, rfl, rfl, rfl, rfl⟩

/-- If every call of the resolver raises, the caught exception leaves
`requester_name` unset. -/
theorem resolve_requester_name_of_error (cid : JVal) (res : Resolver)
    (h : ∀ a b c, ∃ m, res a b c = Except.error m) :
    resolve_requester_name cid (some res) = none := by
  unfold resolve_requester_name
  cases ht : cid.truthy with
  | false => simp
  | true =>
    cases hi : jvalToInt cid with
    | error e => simp
    | ok n =>
      obtain ⟨m, hm⟩ := h 249 n 14949
      simp [hm]

/-- With no resolver attached, `requester_name` stays unset. -/
theorem resolve_requester_name_none (cid : JVal) :
    resolve_requester_name cid none = none := by
  unfold resolve_requester_name
  cases cid.truthy <;> simp

/-- C7: if the reference-resolver call raises on every input, the failure is
caught at the call site, `requester_name` is `none` in the transformed
output, and the transform still completes, producing exactly the record it
would produce with no resolver attached. -/
theorem c7_resolver_failure_is_caught (r : OnspringRecord) (res : Resolver)
    (now : String) (h : ∀ a b c, ∃ m, res a b c = Except.error m) :
    (local_transform_record r (some res) now).requester_name = none ∧
    local_transform_record r (some res) now = local_transform_record r none now := by
  have hres := resolve_requester_name_of_error
    (get_field_value_by_id r.fieldData 14947 JVal.null) res h
  constructor
  · show resolve_requester_name (get_field_value_by_id r.fieldData 14947 JVal.null)
      (some res) = none
    exact hres
  · show local_transform_record r (some res) now = local_transform_record r none now
    simp only [local_transform_record]
    rw [hres, resolve_requester_name_none]

/-- C7 witness: on the sample record with an always-raising resolver, the
transform completes with `requester_name = none` and agrees with the
resolver-less transform. -/
theorem c7_resolver_failure_is_caught_witness :
    (local_transform_record sampleRecord
        (some (fun _ _ _ => Except.error "boom")) "2026-01-01T00:00:00").requester_name
      = none ∧
    local_transform_record sampleRecord
        (some (fun _ _ _ => Except.error "boom")) "2026-01-01T00:00:00"
      = local_transform_record sampleRecord none "2026-01-01T00:00:00" :=
  c7_resolver_failure_is_caught sampleRecord (fun _ _ _ => Except.error "boom")
    "2026-01-01T00:00:00" (fun _ _ _ => ⟨"boom", rfl⟩)

/-- The supplementary loop attempts every file, in source order, no matter
which uploads fail. -/
theorem upload_additional_files_attempted (env : SyncEnv) (files : List SyncFile) :
    (upload_additional_files env files).2.2 = files.map SyncFile.file_id := by
  induction files with
  | nil => rfl
  | cons f rest ih =>
    unfold upload_additional_files
    cases supp_outcome env f <;> simp [ih]

/-- Every supplementary file is counted exactly once, as synced or failed. -/
theorem upload_additional_files_total (env : SyncEnv) (files : List SyncFile) :
    (upload_additional_files env files).1 + (upload_additional_files env files).2.1
      = files.length := by
  induction files with
  | nil => rfl
  | cons f rest ih =>
    unfold upload_additional_files
    cases supp_outcome env f <;> simp <;> omega

/-- The failure counter counts exactly the supplementary files whose
download-then-upload body raised. -/
theorem upload_additional_files_failed (env : SyncEnv) (files : List SyncFile) :
    (upload_additional_files env files).2.1
      = files.countP (fun f => !isOkB (supp_outcome env f)) := by
  induction files with
  | nil => rfl
  | cons f rest ih =>
    unfold upload_additional_files
    cases hs : supp_outcome env f <;>
      simp [List.countP_cons, hs, isOkB, ih]

/-- C3: the Attachment Fan-out uploads each supplementary (non-first) file
independently — every file of the list is attempted in order regardless of
failures, synced + failed always equals the number of supplementary files,
and failed counts exactly the raising uploads; in the concrete scenario of
three attachments whose second upload throws, the record succeeds with one
supplementary synced and one failed (hence two files uploaded in total,
the mandatory primary plus the third attachment, which is still attempted). -/
theorem c3_attachment_fanout :
    (∀ env files,
      (upload_additional_files env files).2.2 = files.map SyncFile.file_id ∧
      (upload_additional_files env files).1 + (upload_additional_files env files).2.1
        = files.length ∧
      (upload_additional_files env files).2.1
        = files.countP (fun f => !isOkB (supp_outcome env f))) ∧
    sync_one_record c3Env 1 c3Files = .ok (1, 1, [102, 103]) ∧
    (103 : Int) ∈ (upload_additional_files c3Env (c3Files.drop 1)).2.2 := by
  refine ⟨fun env files => ⟨upload_additional_files_attempted env files,
    upload_additional_files_total env files, upload_additional_files_failed env files⟩,
    ?_, ?_⟩
  · rfl
  · decide

/-- C8: the primary file is mandatory — an empty attachment scan is a
record-level error (never a silent success), a first file with no filename
or with an extension-less filename makes the record fail, and with a valid
primary the record succeeds no matter what the supplementary uploads do. -/
theorem c8_primary_file_mandatory (env : SyncEnv) (record_id : Int) :
    sync_one_record env record_id [] = .error "No files found in record" ∧
    (∀ f rest, f.file_name = none →
      isOkB (sync_one_record env record_id (f :: rest)) = false) ∧
    (∀ f rest nm, f.file_name = some nm → (splitext nm).2 = "" →
      isOkB (sync_one_record env record_id (f :: rest)) = false) ∧
    (∀ f rest nm, f.file_name = some nm → nm ≠ "" → (splitext nm).2 ≠ "" →
      env.download f.file_id = .ok () →
      isOkB (env.upload_questionnaire record_id) = true →
      sync_one_record env record_id (f :: rest) = .ok (upload_additional_files env rest)) := by
  refine ⟨rfl, ?_, ?_, ?_⟩
  · intro f rest hnm
    simp only [sync_one_record]
    cases hd : env.download f.file_id with
    | error e => rfl
    | ok u => simp [hnm, isOkB]
  · intro f rest nm hnm hext
    simp only [sync_one_record]
    cases hd : env.download f.file_id with
    | error e => rfl
    | ok u =>
      by_cases hempty : nm = ""
      · simp [hnm, hempty, isOkB]
      · simp [hnm, hempty, hext, isOkB]
  · intro f rest nm hnm hempty hext hdl hup
    simp only [sync_one_record, hdl, hnm]
    rw [if_neg hempty, if_neg hext]
    cases hq : env.upload_questionnaire record_id with
    | error e => rw [hq] at hup; exact absurd hup (by simp [isOkB])
    | ok v => rfl

/-- C8 witness: with the three-attachment scenario environment, the empty
scan is an error and a valid primary makes the record succeed. -/
theorem c8_primary_file_mandatory_witness :
    sync_one_record c3Env 1 [] = .error "No files found in record" ∧
    sync_one_record c3Env 1
        (⟨101, some "questionnaire.xlsx"⟩ ::
          [⟨102, some "supporting_docs.pdf"⟩, ⟨103, some "notes.pdf"⟩])
      = .ok (upload_additional_files c3Env
          [⟨102, some "supporting_docs.pdf"⟩, ⟨103, some "notes.pdf"⟩]) :=
  ⟨(c8_primary_file_mandatory c3Env 1).1,
    (c8_primary_file_mandatory c3Env 1).2.2.2 ⟨101, some "questionnaire.xlsx"⟩
      [⟨102, some "supporting_docs.pdf"⟩, ⟨103, some "notes.pdf"⟩]
      "questionnaire.xlsx" rfl (by decide) (by decide) rfl rfl⟩

/-- The batch loop processes every record and records every failure:
successful and failed counts sum to the number of records, and the error
list grows by exactly one entry per failed record. -/
theorem sync_records_go_counts (env : SyncEnv) (records : List RecordStub) :
    ∀ acc : BatchResults,
      (sync_records_go env acc records).successful
          + (sync_records_go env acc records).failed
        = acc.successful + acc.failed + records.length ∧
      (sync_records_go env acc records).errors.length + acc.failed
        = (sync_records_go env acc records).failed + acc.errors.length := by
  induction records with
  | nil =>
    intro acc
    simp only [sync_records_go, List.length_nil]
    omega
  | cons r rest ih =>
    intro acc
    rcases h : sync_one_record env r.recordId r.files with e | ⟨s, fl, att⟩
    · have hg : sync_records_go env acc (r :: rest) =
          sync_records_go env
            { acc with
              failed := acc.failed + 1
              errors := acc.errors ++ [(r.recordId, e)] } rest := by
        simp only [sync_records_go, h]
      have hih := ih
        { acc with
          failed := acc.failed + 1
          errors := acc.errors ++ [(r.recordId, e)] }
      rw [hg]
      simp only [List.length_cons, List.length_append, List.length_nil] at hih ⊢
      omega
    · have hg : sync_records_go env acc (r :: rest) =
          sync_records_go env
            { acc with
              successful := acc.successful + 1
              files_synced := acc.files_synced + s
              files_failed := acc.files_failed + fl } rest := by
        simp only [sync_records_go, h]
      have hih := ih
        { acc with
          successful := acc.successful + 1
          files_synced := acc.files_synced + s
          files_failed := acc.files_failed + fl }
      rw [hg]
      simp only [List.length_cons, List.length_nil] at hih ⊢
      omega

/-- C9: a failure on one record never aborts the batch — every record is
processed (successes and failures always sum to the batch size), each
failure is recorded as one entry of the batch error list, and the batch
handler builds a 200 response with the summary even when every record
failed. -/
theorem c9_batch_partial_failure (env : SyncEnv) (records : List RecordStub) :
    (sync_records_to_arrms env records).successful
        + (sync_records_to_arrms env records).failed
      = records.length ∧
    (sync_records_to_arrms env records).errors.length
      = (sync_records_to_arrms env records).failed ∧
    (onspring_to_arrms_response env records).1 = 200 := by
  obtain ⟨h1, h2⟩ := sync_records_go_counts env records ⟨0, 0, [], 0, 0⟩
  refine ⟨?_, ?_, rfl⟩
  · simpa using h1
  · simpa using h2

/-- Every branch of the upsert queries the backend first: the trace always
begins with the lookup for the given external id. -/
theorem upsert_questionnaire_queries_first (env : UpsertEnv) (external_id : String) :
    (upsert_questionnaire env external_id).2.head? = some (.queried external_id) := by
  unfold upsert_questionnaire
  split
  · rfl
  · split
    · split
      · split <;> rfl
      · rfl
    · rfl

/-- C4: the upsert first queries the target for an entity matching the
external id (the trace always begins with the lookup); a 404 response is
treated as absence, not an error, and leads to a create; and when the query
reports the entity as found (a truthy dict carrying its id), the existing
ARRMS id is used for an update call and no create call is made. -/
theorem c4_upsert_reconciler (env : UpsertEnv) (external_id : String) :
    (upsert_questionnaire env external_id).2.head? = some (.queried external_id) ∧
    (∀ resp, env.query external_id = .ok resp → resp.status = 404 →
      (upsert_questionnaire env external_id).1 = env.create ∧
      (upsert_questionnaire env external_id).2 = [.queried external_id, .createdQ]) ∧
    (∀ q arrms_id,
      get_questionnaire_by_external_id env.query external_id = .ok (some q) →
      q.truthy = true → q.get? "id" = some arrms_id →
      (upsert_questionnaire env external_id).1 = env.update arrms_id ∧
      (upsert_questionnaire env external_id).2
        = [.queried external_id, .updatedQ arrms_id] ∧
      UpsertEvent.createdQ ∉ (upsert_questionnaire env external_id).2) := by
  refine ⟨upsert_questionnaire_queries_first env external_id, ?_, ?_⟩
  · intro resp hq h404
    have hget : get_questionnaire_by_external_id env.query external_id = .ok none := by
      simp [get_questionnaire_by_external_id, hq, h404]
    have hups : upsert_questionnaire env external_id =
        (env.create, [.queried external_id, .createdQ]) := by
      simp [upsert_questionnaire, hget]
    rw [hups]
    exact ⟨rfl, rfl⟩
  · intro q arrms_id hfound htr hid
    have hups : upsert_questionnaire env external_id =
        (env.update arrms_id, [.queried external_id, .updatedQ arrms_id]) := by
      simp [upsert_questionnaire, hfound, htr, hid]
    rw [hups]
    refine ⟨rfl, rfl, ?_⟩
    simp

/-- C4 witness: against a 404 backend the upsert creates; against a backend
now reporting the questionnaire (ARRMS id 3) it updates instead of creating
again. -/
theorem c4_upsert_reconciler_witness :
    (upsert_questionnaire c4Env404 "16").2 = [.queried "16", .createdQ] ∧
    (upsert_questionnaire c4EnvFound "16").2
      = [.queried "16", .updatedQ (JVal.num 3)] :=
  ⟨((c4_upsert_reconciler c4Env404 "16").2.1 ⟨404, []⟩ rfl rfl).2,
   ((c4_upsert_reconciler c4EnvFound "16").2.2 (JVal.obj [("id", JVal.num 3)])
      (JVal.num 3) rfl rfl rfl).2.1⟩

/-- C5: in the forward sync flow, no create or update of the target entity
happens without the flow first querying the target for the record's
externalId/externalSource pair (every write sits in a trace whose first
call is that query); every invocation with a non-empty file list re-issues
the query; and the create-versus-update decision follows the backend's
current answer alone — found means update (and no create), absent means
create (and no update) — so no existence information survives an
invocation. -/
theorem c5_requery_before_write (env : FlowEnv) (record_id : Int)
    (files : List SyncFile) :
    (∀ c ∈ run_webhook_flow env record_id files, c.isWrite = true →
      (run_webhook_flow env record_id files).head?
        = some (ArrmsCall.findQ (toString record_id) "onspring")) ∧
    (files ≠ [] →
      ArrmsCall.findQ (toString record_id) "onspring"
        ∈ run_webhook_flow env record_id files) ∧
    (∀ arrms_id, files ≠ [] →
      env.find (toString record_id) = .ok (some arrms_id) →
      ArrmsCall.updateFileQ arrms_id ∈ run_webhook_flow env record_id files ∧
      ∀ e s, ArrmsCall.uploadNewQ e s ∉ run_webhook_flow env record_id files) ∧
    (files ≠ [] → env.find (toString record_id) = .ok none →
      ArrmsCall.uploadNewQ (toString record_id) "onspring"
        ∈ run_webhook_flow env record_id files ∧
      ∀ i, ArrmsCall.updateFileQ i ∉ run_webhook_flow env record_id files) := by
  cases files with
  | nil =>
    refine ⟨?_, ?_, ?_, ?_⟩
    · intro c hc hw
      simp [run_webhook_flow] at hc
    · intro hne
      exact absurd rfl hne
    · intro arrms_id hne
      exact absurd rfl hne
    · intro hne
      exact absurd rfl hne
  | cons f rest =>
    refine ⟨?_, ?_, ?_, ?_⟩
    · intro c hc hw
      simp [run_webhook_flow]
    · intro hne
      simp [run_webhook_flow]
    · intro arrms_id hne hfind
      constructor
      · simp [run_webhook_flow, hfind]
      · intro e s
        simp [run_webhook_flow, hfind]
        rcases env.update_questionnaire_file arrms_id with er | u <;> simp
    · intro hne hfind
      constructor
      · simp [run_webhook_flow, hfind]
      · intro i
        simp [run_webhook_flow, hfind]
        rcases env.upload_questionnaire (toString record_id) with er | u <;> simp

/-- C5 witness: with a backend reporting questionnaire `q-1`, the flow over
the three-attachment record updates that questionnaire and never creates. -/
theorem c5_requery_before_write_witness :
    ArrmsCall.updateFileQ "q-1" ∈ run_webhook_flow c5Env 12345 c3Files ∧
    ∀ e s, ArrmsCall.uploadNewQ e s ∉ run_webhook_flow c5Env 12345 c3Files :=
  (c5_requery_before_write c5Env 12345 c3Files).2.2.1 "q-1" (by decide) rfl

/-- On an all-dict item list the inner loop of the scan returns exactly one
entry per item, in order, without raising. -/
theorem extract_files_list_ok (record_id : Int) (field_id : Option Int)
    (vs : List JVal) (h : all_items_dicts vs = true) :
    extract_files_list record_id field_id vs
      = .ok (vs.map (claimed_file_info record_id field_id)) := by
  induction vs with
  | nil => rfl
  | cons item rest ih =>
    cases item with
    | obj kvs =>
      have hr : all_items_dicts rest = true := by
        simpa [all_items_dicts] using h
      simp [extract_files_list, extract_file_info, ih hr, claimed_file_info, JVal.get?]
    | null => simp [all_items_dicts] at h
    | bool b => simp [all_items_dicts] at h
    | num n => simp [all_items_dicts] at h
    | str s => simp [all_items_dicts] at h
    | list xs => simp [all_items_dicts] at h

/-- A well-formed `fieldData` entry contributes exactly the entries the
claim predicts. -/
theorem field_files_ok (record_id : Int) (field : FieldData)
    (h : field_wf field = true) :
    field_files record_id field = .ok (claimed_field_files record_id field) := by
  rcases hv : field.value with _ | v
  · simp [field_files, claimed_field_files, hv]
  · cases v with
    | list vs =>
      cases vs with
      | nil => simp [field_files, claimed_field_files, hv]
      | cons first others =>
        cases first with
        | obj kvs =>
          by_cases hid : (kvs.lookup "fileId").isSome
          · have hall : all_items_dicts (JVal.obj kvs :: others) = true := by
              have hwf := h
              simp [field_wf, hv, hid] at hwf
              exact hwf
            simp [field_files, claimed_field_files, hv, hid,
              extract_files_list_ok record_id field.fieldId _ hall]
          · simp [field_files, claimed_field_files, hv, hid]
        | null => simp [field_files, claimed_field_files, hv]
        | bool b => simp [field_files, claimed_field_files, hv]
        | num n => simp [field_files, claimed_field_files, hv]
        | str s => simp [field_files, claimed_field_files, hv]
        | list xs => simp [field_files, claimed_field_files, hv]
    | null => simp [field_files, claimed_field_files, hv]
    | bool b => simp [field_files, claimed_field_files, hv]
    | num n => simp [field_files, claimed_field_files, hv]
    | str s => simp [field_files, claimed_field_files, hv]
    | obj kvs => simp [field_files, claimed_field_files, hv]

/-- The scan over a well-formed `fieldData` array never raises and returns
the concatenation of the per-field contributions, in field order. -/
theorem get_record_files_go_ok (record_id : Int) (fds : List FieldData)
    (h : fds.all field_wf = true) :
    get_record_files_go record_id fds
      = .ok ((fds.map (claimed_field_files record_id)).flatten) := by
  induction fds with
  | nil => rfl
  | cons fd rest ih =>
    simp only [List.all_cons, Bool.and_eq_true] at h
    obtain ⟨h1, h2⟩ := h
    simp [get_record_files_go, field_files_ok record_id fd h1, ih h2]

/-- C10: on every well-formed record dict, the attachment scan never raises
and returns exactly one entry per element of each field whose value is a
non-empty list whose first element is a dict containing `fileId` — in
field order, then within-field list order — while empty lists, non-lists
and lists not led by a `fileId` dict contribute nothing. -/
theorem c10_record_files_scan (r : OnspringRecord) (h : wellFormedFiles r = true) :
    get_record_files r = .ok (claimed_record_files r) :=
  get_record_files_go_ok r.recordId r.fieldData h

/-- C10 witness: on the concrete record with a string field, an empty list,
a non-file list and a two-file attachment list, the scan returns exactly
the two attachment entries, in order. -/
theorem c10_record_files_scan_witness :
    get_record_files c10Record = .ok (claimed_record_files c10Record) ∧
    claimed_record_files c10Record =
      [⟨12345, some 200, some (JVal.num 1001), some (JVal.str "questionnaire.xlsx"),
        none, none, none⟩,
       ⟨12345, some 200, some (JVal.num 1002), some (JVal.str "supporting_docs.pdf"),
        none, none, none⟩] :=
  ⟨c10_record_files_scan c10Record (by rfl), by rfl⟩
